import Mathlib

/-!
Verification of the influxpool Hyperdrive-style AMM core.

The Scrypto `Decimal` type (fixed-point, 18 fractional digits) is embedded as
`ℚ`; division is exact rational division.  Machine `u64` times and durations
are embedded as `Nat` (Rust `saturating_sub` coincides with truncated `Nat`
subtraction).  The `HashMap<u64, Checkpoint>` is embedded as an association
list with insert-replaces semantics.  Host-level `assert!` aborts roll back
the whole transaction in Scrypto, so fallible operations are embedded as
`Except`/`Option` values that carry no state on failure; the committed state
of a failed operation is the pre-state.
-/

namespace Influxpool

/-- Checkpoint record, from `types.rs` (`Checkpoint`). -/
structure Checkpoint where
  start_time : Nat
  share_price : ℚ
  long_positions : ℚ
  short_positions : ℚ
  avg_long_maturity : ℚ
  avg_short_maturity : ℚ
  is_minted : Bool
deriving DecidableEq, Repr

/-- Long-position NFT data, from `types.rs` (`LongPosition`). -/
structure LongPosition where
  face_value : ℚ
  checkpoint : Nat
  open_time : Nat
  maturity_time : Nat
deriving DecidableEq, Repr

/-- Short-position NFT data, from `types.rs` (`ShortPosition`). -/
structure ShortPosition where
  face_value : ℚ
  checkpoint : Nat
  open_time : Nat
  maturity_time : Nat
  initial_share_price : ℚ
deriving DecidableEq, Repr

/-- The mutable pool fields threaded through the dex operations:
`share_reserves` (z), `bond_reserves` (y), `zeta_adjustment` (ζ),
the checkpoints map and the current checkpoint pointer
(`influxpool.rs`, `HyperdrivePool` state). -/
structure PoolSt where
  share_reserves : ℚ
  bond_reserves : ℚ
  zeta_adjustment : ℚ
  checkpoints : List (Nat × Checkpoint)
  current_checkpoint : Nat
deriving DecidableEq, Repr

/-- Abort reasons raised by `assert!` in the Rust source. -/
inductive PoolError where
  | invalidFaceValue
  | insufficientDeposit
  | noReadyShares
deriving DecidableEq, Repr

/-- Association-list lookup modelling `HashMap::get`. -/
def cpGet (m : List (Nat × Checkpoint)) (k : Nat) : Option Checkpoint :=
  (m.find? (fun p => p.1 == k)).map Prod.snd

/-- Association-list insert modelling `HashMap::insert` (replaces any
existing binding for the key). -/
def cpInsert (m : List (Nat × Checkpoint)) (k : Nat) (v : Checkpoint) :
    List (Nat × Checkpoint) :=
  (k, v) :: m.filter (fun p => p.1 != k)

/-- Modelling `HashMap::get_mut` followed by a field update: apply `f` to the
stored checkpoint when the key is present, otherwise leave the map unchanged. -/
def cpModify (m : List (Nat × Checkpoint)) (k : Nat) (f : Checkpoint → Checkpoint) :
    List (Nat × Checkpoint) :=
  match cpGet m k with
  | some v => cpInsert m k (f v)
  | none => m

/-- `constants.rs`: `MIN_POSITION_DURATION` (one default checkpoint, 1 week). -/
def MIN_POSITION_DURATION : Nat := 604800

/-- `constants.rs`: `MAX_POSITION_DURATION` (10 years of 365 days). -/
def MAX_POSITION_DURATION : Nat := 315360000

/-- `curves.rs` `trading_invariant_delta_z`: constant-product quote
`Δz = z·y/(y−Δy) − z`, with the empty-pool (return `Δy`) and drained-bonds
(return `0`) degenerate branches. -/
def trading_invariant_delta_z (delta_y z y : ℚ) : ℚ :=
  if z ≤ 0 ∨ y ≤ 0 then delta_y
  else
    let k := z * y
    let new_y := y - delta_y
    if new_y ≤ 0 then 0
    else k / new_y - z

/-- `curves.rs` `maturity_pricing_delta_z`: `Δy / c`, `0` if `c ≤ 0`. -/
def maturity_pricing_delta_z (delta_y share_price : ℚ) : ℚ :=
  if share_price ≤ 0 then 0
  else delta_y / share_price

/-- `curves.rs` `position_impact_delta_z`: blend of the trading invariant on
the not-yet-matured portion `Δy·tr` and maturity pricing on `Δy·(1−tr)`;
each constituent is only invoked when its portion is strictly positive. -/
def position_impact_delta_z (delta_y z y time_remaining share_price : ℚ) : ℚ :=
  let new_bonds := delta_y * time_remaining
  let matured_bonds := delta_y * (1 - time_remaining)
  let impact_new :=
    if 0 < new_bonds then trading_invariant_delta_z new_bonds z y else 0
  let impact_matured :=
    if 0 < matured_bonds then maturity_pricing_delta_z matured_bonds share_price else 0
  impact_new + impact_matured

/-- `curves.rs` `calculate_position_fees`. -/
def calculate_position_fees (delta_y time_remaining spot_rate new_bond_fee
    matured_bond_fee : ℚ) : ℚ × ℚ :=
  (new_bond_fee * (1 - spot_rate) * delta_y * time_remaining,
   matured_bond_fee * delta_y * (1 - time_remaining))

/-- `curves.rs` `calculate_lp_present_value`. -/
def calculate_lp_present_value (share_reserves bond_reserves share_price
    active_lp_shares : ℚ) : ℚ :=
  if active_lp_shares ≤ 0 then 1
  else (share_reserves * share_price + bond_reserves) / active_lp_shares

/-- `curves.rs` `calculate_long_face_value`: inverse trading-invariant quote
`Δy = y − z·y/(z+Δz)`, 1:1 when reserves are empty. -/
def calculate_long_face_value (share_amount effective_share_reserves
    bond_reserves : ℚ) : ℚ :=
  if effective_share_reserves ≤ 0 ∨ bond_reserves ≤ 0 then share_amount
  else
    let k := effective_share_reserves * bond_reserves
    let new_z := effective_share_reserves + share_amount
    bond_reserves - k / new_z

/-- `curves.rs` `calculate_short_deposit`:
`face_value·c − position_impact_delta_z(...)·c`. -/
def calculate_short_deposit (face_value effective_share_reserves bond_reserves
    share_price time_remaining : ℚ) : ℚ :=
  let delta_z := position_impact_delta_z face_value effective_share_reserves
    bond_reserves time_remaining share_price
  face_value * share_price - delta_z * share_price

/-- `curves.rs` `validate_trading_parameters`: `true` when all four asserts
pass (positive reserves, positive `Δy`, `Δy < y`). -/
def validate_trading_parameters (effective_share_reserves bond_reserves
    delta_y : ℚ) : Bool :=
  decide (0 < effective_share_reserves) && decide (0 < bond_reserves) &&
    decide (0 < delta_y) && decide (delta_y < bond_reserves)

/-- `helpers.rs` `calculate_effective_share_reserves`: `z − ζ`. -/
def calculate_effective_share_reserves (share_reserves zeta_adjustment : ℚ) : ℚ :=
  share_reserves - zeta_adjustment

/-- `helpers.rs` `calculate_spot_rate`: `(z_e·c)/(z_e·c + y) − 1` with the
non-positive-operand guards returning `0`. -/
def calculate_spot_rate (effective_share_reserves bond_reserves share_price : ℚ) : ℚ :=
  if effective_share_reserves ≤ 0 ∨ bond_reserves ≤ 0 then 0
  else
    let numerator := effective_share_reserves * share_price
    let denominator := numerator + bond_reserves
    if denominator ≤ 0 then 0
    else numerator / denominator - 1

/-- `helpers.rs` `validate_fee`: `true` when the fee lies in `[0, 1]`. -/
def validate_fee (fee : ℚ) : Bool :=
  decide (0 ≤ fee) && decide (fee ≤ 1)

/-- `helpers.rs` `validate_durations`: `true` when all five asserts pass. -/
def validate_durations (checkpoint_duration position_duration : Nat) : Bool :=
  decide (0 < checkpoint_duration) && decide (0 < position_duration) &&
    decide (MIN_POSITION_DURATION ≤ position_duration) &&
    decide (position_duration ≤ MAX_POSITION_DURATION) &&
    (position_duration % checkpoint_duration == 0)

/-- `helpers.rs` `calculate_time_remaining`: fraction of the term not yet
elapsed; `0` on maturity or inconsistent timestamps.  Rust `saturating_sub`
is `Nat` subtraction. -/
def calculate_time_remaining (current_time open_time maturity_time : Nat) : ℚ :=
  if maturity_time ≤ current_time then 0
  else if maturity_time ≤ open_time then 0
  else
    let time_passed := current_time - open_time
    let total_duration := maturity_time - open_time
    if total_duration = 0 then 0
    else ((total_duration - time_passed : Nat) : ℚ) / (total_duration : ℚ)

/-- `helpers.rs` `calculate_current_checkpoint`: `now − now % dc`. -/
def calculate_current_checkpoint (current_time checkpoint_duration : Nat) : Nat :=
  current_time - current_time % checkpoint_duration

/-- `helpers.rs` `should_update_checkpoint`. -/
def should_update_checkpoint (current_checkpoint calculated_checkpoint : Nat) : Bool :=
  decide (current_checkpoint < calculated_checkpoint)

/-- `events.rs` `update_checkpoint_if_needed`: mint a fresh checkpoint at the
wall-clock bucket when it is strictly ahead of the stored pointer; returns the
updated map and pointer.  The single epoch read is passed in as `now`. -/
def update_checkpoint_if_needed (checkpoints : List (Nat × Checkpoint))
    (current_checkpoint checkpoint_duration : Nat) (share_price : ℚ)
    (now : Nat) : List (Nat × Checkpoint) × Nat :=
  let calculated := calculate_current_checkpoint now checkpoint_duration
  if should_update_checkpoint current_checkpoint calculated then
    (cpInsert checkpoints calculated
      ⟨calculated, share_price, 0, 0, 0, 0, true⟩, calculated)
  else (checkpoints, current_checkpoint)

/-- `events.rs` `update_checkpoint_long_opened`. -/
def update_checkpoint_long_opened (checkpoints : List (Nat × Checkpoint))
    (checkpoint_id : Nat) (face_value : ℚ) (maturity_time : Nat) :
    List (Nat × Checkpoint) :=
  cpModify checkpoints checkpoint_id (fun cp =>
    let old_total := cp.long_positions
    let new_total := old_total + face_value
    let avg :=
      if 0 < new_total then
        (cp.avg_long_maturity * old_total + (maturity_time : ℚ) * face_value) / new_total
      else cp.avg_long_maturity
    { cp with long_positions := new_total, avg_long_maturity := avg })

/-- `events.rs` `update_checkpoint_long_closed` (deliberately simplified
average-maturity update, as in the source). -/
def update_checkpoint_long_closed (checkpoints : List (Nat × Checkpoint))
    (checkpoint_id : Nat) (face_value time_remaining : ℚ) :
    List (Nat × Checkpoint) :=
  cpModify checkpoints checkpoint_id (fun cp =>
    let remaining := cp.long_positions - face_value
    let avg := if 0 < remaining then time_remaining else 0
    { cp with long_positions := remaining, avg_long_maturity := avg })

/-- `events.rs` `update_checkpoint_short_opened`. -/
def update_checkpoint_short_opened (checkpoints : List (Nat × Checkpoint))
    (checkpoint_id : Nat) (face_value : ℚ) (maturity_time : Nat) :
    List (Nat × Checkpoint) :=
  cpModify checkpoints checkpoint_id (fun cp =>
    let old_total := cp.short_positions
    let new_total := old_total + face_value
    let avg :=
      if 0 < new_total then
        (cp.avg_short_maturity * old_total + (maturity_time : ℚ) * face_value) / new_total
      else cp.avg_short_maturity
    { cp with short_positions := new_total, avg_short_maturity := avg })

/-- `events.rs` `update_checkpoint_short_closed`. -/
def update_checkpoint_short_closed (checkpoints : List (Nat × Checkpoint))
    (checkpoint_id : Nat) (face_value time_remaining : ℚ) :
    List (Nat × Checkpoint) :=
  cpModify checkpoints checkpoint_id (fun cp =>
    let remaining := cp.short_positions - face_value
    let avg := if 0 < remaining then time_remaining else 0
    { cp with short_positions := remaining, avg_short_maturity := avg })

/-- `events.rs` `calculate_solvency_requirement`: sum of
`max(long − short, 0)` over one position-duration window walking backwards
from the current checkpoint in checkpoint-duration steps. -/
def calculate_solvency_requirement (checkpoints : List (Nat × Checkpoint))
    (current_checkpoint checkpoint_duration position_duration : Nat) : ℚ :=
  let checkpoints_per_term := position_duration / checkpoint_duration
  (List.range checkpoints_per_term).foldl (fun acc i =>
    match cpGet checkpoints (current_checkpoint - i * checkpoint_duration) with
    | some cp => acc + max (cp.long_positions - cp.short_positions) 0
    | none => acc) 0

/-- `liquidity.rs` `calculate_idle_liquidity`: idle shares are clamped below
the solvency headroom and the distance to the minimum reserve, then converted
to base tokens by multiplying with the share price. -/
def calculate_idle_liquidity (share_reserves share_price min_share_reserves : ℚ)
    (checkpoints : List (Nat × Checkpoint))
    (current_checkpoint checkpoint_duration position_duration : Nat) : ℚ :=
  let solvency_requirement := calculate_solvency_requirement checkpoints
    current_checkpoint checkpoint_duration position_duration
  let idle_liquidity_shares :=
    min (max (share_reserves - solvency_requirement / share_price) 0)
      (share_reserves - min_share_reserves)
  idle_liquidity_shares * share_price

/-- Result of `distribute_excess_idle_liquidity`: the three rescaled pool
fields together with the returned pair `(idle_liquidity, ready_withdrawal_shares)`. -/
structure SweepOut where
  share_reserves : ℚ
  bond_reserves : ℚ
  zeta_adjustment : ℚ
  idle : ℚ
  ready : ℚ
deriving DecidableEq, Repr

/-- `liquidity.rs` `distribute_excess_idle_liquidity`: when idle liquidity and
outstanding withdrawal shares are both positive, shrink the share reserves by
the idle shares and rescale `ζ` and `y` by `z_new / (z_new + idle/c)`;
otherwise leave the state untouched and return zeros. -/
def distribute_excess_idle_liquidity (share_reserves bond_reserves
    zeta_adjustment share_price withdrawal_shares active_lp_shares
    min_share_reserves : ℚ) (checkpoints : List (Nat × Checkpoint))
    (current_checkpoint checkpoint_duration position_duration : Nat) : SweepOut :=
  let idle_liquidity := calculate_idle_liquidity share_reserves share_price
    min_share_reserves checkpoints current_checkpoint checkpoint_duration
    position_duration
  if withdrawal_shares ≤ 0 ∨ idle_liquidity ≤ 0 then
    ⟨share_reserves, bond_reserves, zeta_adjustment, 0, 0⟩
  else
    let lp_present_value := calculate_lp_present_value share_reserves
      bond_reserves share_price active_lp_shares
    let max_withdrawal_shares :=
      idle_liquidity / share_price * withdrawal_shares / lp_present_value
    let ready_withdrawal_shares := min max_withdrawal_shares withdrawal_shares
    if ready_withdrawal_shares ≤ 0 then
      ⟨share_reserves, bond_reserves, zeta_adjustment, 0, 0⟩
    else
      let new_share_reserves := share_reserves - idle_liquidity / share_price
      let share_scaling :=
        new_share_reserves / (new_share_reserves + idle_liquidity / share_price)
      ⟨new_share_reserves, bond_reserves * share_scaling,
        zeta_adjustment * share_scaling, idle_liquidity, ready_withdrawal_shares⟩

/-- `liquidity.rs` `redeem_withdrawal_shares`: aborts when no ready shares
exist; otherwise burns the whole supplied withdrawal-share bucket, burns
`min(requested, ready)` ready shares, and pays `min(requested, ready)·c` base
tokens.  The result triple is
(withdrawal shares burned, ready shares burned, base tokens paid out). -/
def redeem_withdrawal_shares (withdrawal_amount ready_withdrawal_shares_amount
    share_price : ℚ) : Except PoolError (ℚ × ℚ × ℚ) :=
  if ready_withdrawal_shares_amount ≤ 0 then .error .noReadyShares
  else
    let max_redemption := min withdrawal_amount ready_withdrawal_shares_amount
    .ok (withdrawal_amount, max_redemption, max_redemption * share_price)

/-- `dex.rs` `open_long_position` (reserve/checkpoint thread): convert the
deposit to shares, quote the face value, charge the new-bond fee, move the
reserves and register the position.  Returns the new pool state, the minted
position record and the governance fee amount.  Vault moves (custody) are
outside the pool-state model. -/
def open_long_position (base_amount : ℚ) (s : PoolSt) (share_price : ℚ)
    (checkpoint_duration position_duration : Nat)
    (new_bond_fee governance_fee : ℚ) (now : Nat) :
    PoolSt × LongPosition × ℚ :=
  let cu := update_checkpoint_if_needed s.checkpoints s.current_checkpoint
    checkpoint_duration share_price now
  let cc := cu.2
  let maturity_time := cc + position_duration
  let time_remaining : ℚ := 1
  let share_amount := base_amount / share_price
  let effective_shares := calculate_effective_share_reserves s.share_reserves
    s.zeta_adjustment
  let face_value := calculate_long_face_value share_amount effective_shares
    s.bond_reserves
  let spot_rate := calculate_spot_rate effective_shares s.bond_reserves share_price
  let fees := calculate_position_fees face_value time_remaining spot_rate
    new_bond_fee 0
  let total_fee := fees.1
  let governance_fee_amount := total_fee * governance_fee
  let lp_fee := total_fee - governance_fee_amount
  let adjusted_face_value := face_value - lp_fee
  let checkpoints := update_checkpoint_long_opened cu.1 cc adjusted_face_value
    maturity_time
  (⟨s.share_reserves + share_amount, s.bond_reserves - adjusted_face_value,
      s.zeta_adjustment, checkpoints, cc⟩,
    ⟨adjusted_face_value, cc, now, maturity_time⟩,
    governance_fee_amount)

/-- `dex.rs` `close_long_position` (reserve/checkpoint thread): recompute the
time remaining, quote the blended impact, charge fees, move the reserves,
adjust `ζ` by the matured-portion impact and deregister the position.
Returns the new pool state, the base proceeds and the governance fee amount. -/
def close_long_position (position : LongPosition) (s : PoolSt)
    (share_price : ℚ) (checkpoint_duration : Nat)
    (new_bond_fee matured_bond_fee governance_fee : ℚ) (now : Nat) :
    PoolSt × ℚ × ℚ :=
  let cu := update_checkpoint_if_needed s.checkpoints s.current_checkpoint
    checkpoint_duration share_price now
  let cc := cu.2
  let time_remaining := calculate_time_remaining now position.open_time
    position.maturity_time
  let face_value := position.face_value
  let effective_shares := calculate_effective_share_reserves s.share_reserves
    s.zeta_adjustment
  let delta_z := position_impact_delta_z face_value effective_shares
    s.bond_reserves time_remaining share_price
  let spot_rate := calculate_spot_rate effective_shares s.bond_reserves share_price
  let fees := calculate_position_fees face_value time_remaining spot_rate
    new_bond_fee matured_bond_fee
  let total_fee := fees.1 + fees.2
  let governance_fee_amount := total_fee * governance_fee
  let lp_fee := total_fee - governance_fee_amount
  let base_proceeds := delta_z * share_price - lp_fee
  let matured_impact := maturity_pricing_delta_z
    (face_value * (1 - time_remaining)) share_price
  let zeta := s.zeta_adjustment -
    (matured_impact - fees.2 * (1 - governance_fee))
  let checkpoints := update_checkpoint_long_closed cu.1 position.checkpoint
    face_value time_remaining
  (⟨s.share_reserves - delta_z, s.bond_reserves + face_value * time_remaining,
      zeta, checkpoints, cc⟩,
    base_proceeds, governance_fee_amount)

/-- The total deposit `open_short_position` requires before it will commit:
the short collateral requirement plus the LP share of the new-bond fee,
computed from the pre-trade reserves (the checkpoint update that precedes it
in the source does not touch the reserves). -/
def open_short_required_deposit (face_value : ℚ) (s : PoolSt)
    (share_price new_bond_fee governance_fee : ℚ) : ℚ :=
  let effective_shares := calculate_effective_share_reserves s.share_reserves
    s.zeta_adjustment
  let deposit_required := calculate_short_deposit face_value effective_shares
    s.bond_reserves share_price 1
  let spot_rate := calculate_spot_rate effective_shares s.bond_reserves share_price
  let fees := calculate_position_fees face_value 1 spot_rate new_bond_fee 0
  let total_fee := fees.1
  let governance_fee_amount := total_fee * governance_fee
  let lp_fee := total_fee - governance_fee_amount
  deposit_required + lp_fee

/-- `dex.rs` `open_short_position` (reserve/checkpoint thread): aborts unless
`face_value > 0` and the supplied capital covers the required deposit plus the
LP fee; on success moves the reserves (`z` down net of the fee share, `y` up
by the face value) and registers the short.  Returns the new pool state, the
minted position record, the unconsumed change and the governance fee amount. -/
def open_short_position (capital face_value : ℚ) (s : PoolSt)
    (share_price : ℚ) (checkpoint_duration position_duration : Nat)
    (new_bond_fee governance_fee : ℚ) (now : Nat) :
    Except PoolError (PoolSt × ShortPosition × ℚ × ℚ) :=
  if face_value ≤ 0 then .error .invalidFaceValue
  else
    let cu := update_checkpoint_if_needed s.checkpoints s.current_checkpoint
      checkpoint_duration share_price now
    let cc := cu.2
    let maturity_time := cc + position_duration
    let effective_shares := calculate_effective_share_reserves s.share_reserves
      s.zeta_adjustment
    let spot_rate := calculate_spot_rate effective_shares s.bond_reserves share_price
    let fees := calculate_position_fees face_value 1 spot_rate new_bond_fee 0
    let total_fee := fees.1
    let governance_fee_amount := total_fee * governance_fee
    let lp_fee := total_fee - governance_fee_amount
    let total_deposit_required := open_short_required_deposit face_value s
      share_price new_bond_fee governance_fee
    if capital < total_deposit_required then .error .insufficientDeposit
    else
      let delta_z := position_impact_delta_z face_value effective_shares
        s.bond_reserves 1 share_price
      let checkpoints := update_checkpoint_short_opened cu.1 cc face_value
        maturity_time
      .ok (⟨s.share_reserves - (delta_z - lp_fee / share_price),
          s.bond_reserves + face_value, s.zeta_adjustment, checkpoints, cc⟩,
        ⟨face_value, cc, now, maturity_time, share_price⟩,
        capital - total_deposit_required, governance_fee_amount)

/-- Committed pool state of an `open_short` transaction: a Scrypto `assert!`
aborts and rolls back the whole transaction, so a failed operation commits
the pre-state unchanged. -/
def open_short_tx (capital face_value : ℚ) (s : PoolSt) (share_price : ℚ)
    (checkpoint_duration position_duration : Nat)
    (new_bond_fee governance_fee : ℚ) (now : Nat) : PoolSt :=
  match open_short_position capital face_value s share_price
    checkpoint_duration position_duration new_bond_fee governance_fee now with
  | .ok r => r.1
  | .error _ => s

/-- `influxpool.rs` `create_pool` (pool-state thread): after validation the
pool starts with `z = initial − z_min`, `y = 0`, `ζ = 0`, share price `1`,
and the first checkpoint seeded at the current time bucket
(`initialize_first_checkpoint`). -/
def create_pool_state (initial_amount min_share_reserves : ℚ)
    (checkpoint_duration : Nat) (now : Nat) : PoolSt :=
  let cc := calculate_current_checkpoint now checkpoint_duration
  ⟨initial_amount - min_share_reserves, 0, 0,
    [(cc, ⟨cc, 1, 0, 0, 0, 0, true⟩)], cc⟩

/-- `trading_invariant_delta_z` at `Δy = 0` is `0` in every branch. -/
theorem trading_invariant_delta_z_zero (z y : ℚ) :
    trading_invariant_delta_z 0 z y = 0 := by
  unfold trading_invariant_delta_z
  by_cases h : z ≤ 0 ∨ y ≤ 0
  · simp [h]
  · have hy : (0:ℚ) < y := by push_neg at h; exact h.2
    have h2 : ¬ (y - 0 ≤ 0) := by linarith
    rw [if_neg h, if_neg h2, sub_zero, mul_div_assoc, div_self hy.ne',
      mul_one, sub_self]

/-- `maturity_pricing_delta_z` at `Δy = 0` is `0` in every branch. -/
theorem maturity_pricing_delta_z_zero (c : ℚ) :
    maturity_pricing_delta_z 0 c = 0 := by
  unfold maturity_pricing_delta_z
  by_cases h : c ≤ 0 <;> simp [h]

/-- Claim C2: for `z, y > 0` and `0 < Δy < y`, `trading_invariant_delta_z`
returns `(z·y)/(y−Δy) − z` and satisfies the constant-product equation
`z·y = (z+Δz)·(y−Δy)` exactly in rational arithmetic; if `z ≤ 0` or `y ≤ 0`
it returns `Δy`, and if `y − Δy ≤ 0` (with positive reserves) it returns `0`. -/
theorem trading_invariant_delta_z_spec (delta_y z y : ℚ) :
    (0 < z → 0 < y → 0 < delta_y → delta_y < y →
      trading_invariant_delta_z delta_y z y = z * y / (y - delta_y) - z ∧
      z * y = (z + trading_invariant_delta_z delta_y z y) * (y - delta_y)) ∧
    (z ≤ 0 ∨ y ≤ 0 → trading_invariant_delta_z delta_y z y = delta_y) ∧
    (0 < z → 0 < y → y - delta_y ≤ 0 → trading_invariant_delta_z delta_y z y = 0) := by
  refine ⟨fun hz hy hd hdy => ?_, fun h => ?_, fun hz hy h => ?_⟩
  · have h1 : ¬ (z ≤ 0 ∨ y ≤ 0) := by push_neg; exact ⟨hz, hy⟩
    have h2 : ¬ (y - delta_y ≤ 0) := by linarith
    have heq : trading_invariant_delta_z delta_y z y = z * y / (y - delta_y) - z := by
      unfold trading_invariant_delta_z
      simp only [h1, if_false, h2]
    refine ⟨heq, ?_⟩
    rw [heq]
    have hne : y - delta_y ≠ 0 := by linarith
    field_simp
    ring
  · unfold trading_invariant_delta_z
    simp [h]
  · have h1 : ¬ (z ≤ 0 ∨ y ≤ 0) := by push_neg; exact ⟨hz, hy⟩
    unfold trading_invariant_delta_z
    simp only [h1, if_false, h]
    simp [h]

/-- Witness for C2 at `Δy = 1`, `z = 2`, `y = 3`. -/
theorem trading_invariant_delta_z_spec_witness :
    trading_invariant_delta_z 1 2 3 = 2 * 3 / (3 - 1) - 2 ∧
    (2 : ℚ) * 3 = (2 + trading_invariant_delta_z 1 2 3) * (3 - 1) :=
  (trading_invariant_delta_z_spec 1 2 3).1 (by norm_num) (by norm_num)
    (by norm_num) (by norm_num)

/-- Counterexample to claim C3: the spec's example pair
`checkpoint_duration = 604800, position_duration = 31536000` is rejected by
`validate_durations` (a 365-day year is 86400 seconds more than 52 weeks). -/
theorem validate_durations_year_rejected :
    validate_durations 604800 31536000 = false ∧ 31536000 % 604800 = 86400 := by
  constructor <;> decide

/-- Claim C3 (amended): `validate_durations` rejects both
`position_duration = 31536000` and `31536001` with
`checkpoint_duration = 604800`, because neither is a multiple of 604800;
the nearby value `31449600` (exactly 52 checkpoints) is accepted. -/
theorem validate_durations_week_year_pairs :
    validate_durations 604800 31536000 = false ∧
    validate_durations 604800 31536001 = false ∧
    validate_durations 604800 31449600 = true := by
  refine ⟨?_, ?_, ?_⟩ <;> decide

/-- Counterexample to claim C5: with `share_reserves = 10`, `share_price = 2`,
`min_share_reserves = 0` and an empty ledger, `calculate_idle_liquidity`
returns `20`, which exceeds `share_reserves − min_share_reserves = 10`. -/
theorem calculate_idle_liquidity_exceeds_headroom :
    calculate_idle_liquidity 10 2 0 [] 0 1 1 = 20 ∧
    ¬ calculate_idle_liquidity 10 2 0 [] 0 1 1 ≤ 10 - 0 := by
  have hs : calculate_solvency_requirement [] 0 1 1 = 0 := by
    unfold calculate_solvency_requirement
    simp [cpGet]
  have h : calculate_idle_liquidity 10 2 0 [] 0 1 1 = 20 := by
    unfold calculate_idle_liquidity
    rw [hs]
    norm_num [max_def, min_def]
  exact ⟨h, by rw [h]; norm_num⟩

/-- Claim C5 (amended): `calculate_idle_liquidity` returns base tokens, not
shares: for any non-negative share price the returned value is at most
`(share_reserves − min_share_reserves) · share_price`. -/
theorem calculate_idle_liquidity_le_headroom_value
    (z c minz : ℚ) (cps : List (Nat × Checkpoint)) (cc dc pd : Nat)
    (hc : 0 ≤ c) :
    calculate_idle_liquidity z c minz cps cc dc pd ≤ (z - minz) * c := by
  unfold calculate_idle_liquidity
  exact mul_le_mul_of_nonneg_right (min_le_right _ _) hc

/-- Witness for the amended C5 at `z = 10`, `c = 2`, `minz = 0`. -/
theorem calculate_idle_liquidity_le_headroom_value_witness :
    calculate_idle_liquidity 10 2 0 [] 0 1 1 ≤ (10 - 0) * 2 :=
  calculate_idle_liquidity_le_headroom_value 10 2 0 [] 0 1 1 (by norm_num)

/-- Counterexample to claim C9: at `Δy = −1`, `position_impact_delta_z` with
`tr = 1` returns `0` while `trading_invariant_delta_z` returns `−1/2`, so the
boundary identity fails for negative `Δy`. -/
theorem position_impact_boundary_fails_negative :
    position_impact_delta_z (-1) 1 1 1 1 = 0 ∧
    trading_invariant_delta_z (-1) 1 1 = -(1 / 2) ∧
    position_impact_delta_z (-1) 1 1 1 1 ≠ trading_invariant_delta_z (-1) 1 1 := by
  have h1 : position_impact_delta_z (-1) 1 1 1 1 = 0 := by
    unfold position_impact_delta_z
    norm_num
  have h2 : trading_invariant_delta_z (-1) 1 1 = -(1 / 2) := by
    unfold trading_invariant_delta_z
    norm_num
  exact ⟨h1, h2, by rw [h1, h2]; norm_num⟩

/-- Claim C9 (amended): for every `Δy ≥ 0` (and all `z`, `y`, `c`),
`position_impact_delta_z(Δy,z,y,1,c) = trading_invariant_delta_z(Δy,z,y)` and
`position_impact_delta_z(Δy,z,y,0,c) = maturity_pricing_delta_z(Δy,c)`. -/
theorem position_impact_boundary_continuity (delta_y z y c : ℚ)
    (h : 0 ≤ delta_y) :
    position_impact_delta_z delta_y z y 1 c = trading_invariant_delta_z delta_y z y ∧
    position_impact_delta_z delta_y z y 0 c = maturity_pricing_delta_z delta_y c := by
  rcases h.lt_or_eq with hpos | hzero
  · constructor
    · unfold position_impact_delta_z
      norm_num [hpos]
    · unfold position_impact_delta_z
      norm_num [hpos]
  · subst hzero
    constructor
    · unfold position_impact_delta_z
      norm_num [trading_invariant_delta_z_zero]
    · unfold position_impact_delta_z
      norm_num [maturity_pricing_delta_z_zero]

/-- Witness for the amended C9 at `Δy = 5`, `z = 2`, `y = 7`, `c = 3`. -/
theorem position_impact_boundary_continuity_witness :
    position_impact_delta_z 5 2 7 1 3 = trading_invariant_delta_z 5 2 7 ∧
    position_impact_delta_z 5 2 7 0 3 = maturity_pricing_delta_z 5 3 :=
  position_impact_boundary_continuity 5 2 7 3 (by norm_num)

/-- Claim C10: redeeming more withdrawal shares than are ready burns the whole
supplied bucket but pays only `ready · share_price`, burning exactly `ready`
ready-withdrawal shares; the excess is destroyed without compensation and the
operation does not fail. -/
theorem redeem_excess_burns_all_pays_ready (amt ready c : ℚ)
    (h1 : 0 < ready) (h2 : ready < amt) :
    redeem_withdrawal_shares amt ready c = .ok (amt, ready, ready * c) := by
  unfold redeem_withdrawal_shares
  rw [if_neg (not_le.2 h1), min_eq_right h2.le]

/-- Witness for C10 at `requested = 7`, `ready = 3`, `c = 2`. -/
theorem redeem_excess_burns_all_pays_ready_witness :
    redeem_withdrawal_shares 7 3 2 = .ok (7, 3, 3 * 2) :=
  redeem_excess_burns_all_pays_ready 7 3 2 (by norm_num) (by norm_num)

/-- When the wall-clock bucket is not strictly ahead of the stored pointer,
`update_checkpoint_if_needed` is a no-op. -/
theorem update_checkpoint_no_op (cps : List (Nat × Checkpoint)) (cc dc : Nat)
    (c : ℚ) (now : Nat) (h : calculate_current_checkpoint now dc ≤ cc) :
    update_checkpoint_if_needed cps cc dc c now = (cps, cc) := by
  unfold update_checkpoint_if_needed should_update_checkpoint
  simp [not_lt.2 h]

/-- Counterexample to claim C1: after `create_pool` with 100 units of initial
liquidity and `min_share_reserves = 0` (so `y = 0`), a single `open_long` of
10 units at zero fees commits `bond_reserves = −10 < 0`. -/
theorem open_long_fresh_pool_negative_bonds :
    (open_long_position 10 (create_pool_state 100 0 1 0) 1 1 1 0 0 0).1.bond_reserves
      = -10 ∧
    (open_long_position 10 (create_pool_state 100 0 1 0) 1 1 1 0 0 0).1.bond_reserves
      < 0 := by
  have h : (open_long_position 10 (create_pool_state 100 0 1 0) 1 1 1 0 0 0).1.bond_reserves
      = -10 := by
    unfold open_long_position create_pool_state
    norm_num [calculate_current_checkpoint, calculate_effective_share_reserves,
      calculate_long_face_value, calculate_spot_rate, calculate_position_fees]
  exact ⟨h, by rw [h]; norm_num⟩

/-- Claim C1 (amended): `create_pool` seeds `z = initial − z_min` and `y = 0`;
`open_long` against the freshly created pool leaves `z > 0` but drives
`bond_reserves` strictly below zero for every positive deposit (whenever the
retained LP-fee rate `ϕ_n·(1−ϕ_g)` is below 1), so the invariant `y ≥ 0` does
not survive the first long. -/
theorem open_long_breaks_bond_invariant (initial minz b phi_n phi_g : ℚ)
    (dc pd now : Nat) (hb : 0 < b) (hfee : phi_n * (1 - phi_g) < 1)
    (hz : minz < initial) :
    0 < (open_long_position b (create_pool_state initial minz dc now) 1 dc pd
        phi_n phi_g now).1.share_reserves ∧
    (open_long_position b (create_pool_state initial minz dc now) 1 dc pd
        phi_n phi_g now).1.bond_reserves < 0 := by
  have hcp := update_checkpoint_no_op
    [(calculate_current_checkpoint now dc,
      ⟨calculate_current_checkpoint now dc, 1, 0, 0, 0, 0, true⟩)]
    (calculate_current_checkpoint now dc) dc 1 now (le_refl _)
  unfold open_long_position create_pool_state
  rw [hcp]
  have hkey : 0 < b * (1 - phi_n * (1 - phi_g)) :=
    mul_pos hb (by linarith)
  constructor
  · norm_num [calculate_effective_share_reserves]
    linarith
  · norm_num [calculate_effective_share_reserves, calculate_long_face_value,
      calculate_spot_rate, calculate_position_fees]
    nlinarith [hkey]

/-- Witness for the amended C1: pool created with 100 units, `z_min = 0`,
fees `ϕ_n = ϕ_g = 0`, then a long opened with 10 units. -/
theorem open_long_breaks_bond_invariant_witness :
    0 < (open_long_position 10 (create_pool_state 100 0 7 3) 1 7 21
        0 0 3).1.share_reserves ∧
    (open_long_position 10 (create_pool_state 100 0 7 3) 1 7 21
        0 0 3).1.bond_reserves < 0 :=
  open_long_breaks_bond_invariant 100 0 10 0 0 7 21 3 (by norm_num)
    (by norm_num) (by norm_num)

/-- Claim C4: when `open_short` aborts because the supplied capital is below
the total required deposit, the committed pool state — share reserves, bond
reserves, zeta adjustment, checkpoints map and current checkpoint — is
exactly the pre-operation state (the transaction rolls back, including the
checkpoint minted before the validation). -/
theorem open_short_failure_leaves_state_unchanged (capital face_value : ℚ)
    (s : PoolSt) (c : ℚ) (dc pd : Nat) (phi_n phi_g : ℚ) (now : Nat)
    (h : capital < open_short_required_deposit face_value s c phi_n phi_g) :
    open_short_tx capital face_value s c dc pd phi_n phi_g now = s := by
  unfold open_short_tx open_short_position
  by_cases hf : face_value ≤ 0
  · rw [if_pos hf]
  · simp only [if_neg hf, if_pos h]

/-- Witness for C4: a pool with `z = 10`, `y = 5` and a short of face value 5
at zero fees requires a deposit of 5; supplying 0 leaves the state unchanged. -/
theorem open_short_failure_leaves_state_unchanged_witness :
    open_short_tx 0 5 ⟨10, 5, 0, [], 0⟩ 1 1 1 0 0 0 = ⟨10, 5, 0, [], 0⟩ :=
  open_short_failure_leaves_state_unchanged 0 5 ⟨10, 5, 0, [], 0⟩ 1 1 1 0 0 0
    (by unfold open_short_required_deposit calculate_short_deposit
          position_impact_delta_z trading_invariant_delta_z
          calculate_effective_share_reserves calculate_spot_rate
          calculate_position_fees
        norm_num)

/-- Counterexample to claim C6: a short of face value 5 against bond reserves
of exactly 5 (`Δy ≥ y`) does not abort: the curve quote degenerates to 0, the
full collateral of 5 passes the deposit check, and the trade commits with
`bond_reserves = 10`. -/
theorem open_short_drain_commits :
    (open_short_position 5 5 ⟨10, 5, 0, [], 0⟩ 1 1 1 0 0 0).isOk = true ∧
    (open_short_tx 5 5 ⟨10, 5, 0, [], 0⟩ 1 1 1 0 0 0).bond_reserves = 10 := by
  have hcp : update_checkpoint_if_needed [] 0 1 1 0 = ([], 0) :=
    update_checkpoint_no_op _ _ _ _ _ (by norm_num [calculate_current_checkpoint])
  have hok : open_short_position 5 5 (⟨10, 5, 0, [], 0⟩ : PoolSt) 1 1 1 0 0 0 =
      .ok (⟨10, 10, 0, [], 0⟩, ⟨5, 0, 0, 1, 1⟩, 0, 0) := by
    unfold open_short_position open_short_required_deposit
    rw [hcp]
    norm_num [calculate_effective_share_reserves, calculate_spot_rate,
      calculate_position_fees, calculate_short_deposit, position_impact_delta_z,
      trading_invariant_delta_z, update_checkpoint_short_opened, cpModify, cpGet]
  constructor
  · rw [hok]; rfl
  · unfold open_short_tx
    rw [hok]

/-- Claim C6 (amended): `validate_trading_parameters` does reject `Δy ≥ y`
(returning `false`), but no trade path invokes it: `open_short` with a face
value at least the bond reserves and sufficient capital commits successfully,
the curve portion of its quote having silently degenerated, and increases
`bond_reserves` by the full face value. -/
theorem open_short_skips_trading_validation (capital face_value : ℚ)
    (s : PoolSt) (c : ℚ) (dc pd : Nat) (phi_n phi_g : ℚ) (now : Nat)
    (hy : 0 < s.bond_reserves) (hface : s.bond_reserves ≤ face_value)
    (hcap : open_short_required_deposit face_value s c phi_n phi_g ≤ capital) :
    validate_trading_parameters
      (calculate_effective_share_reserves s.share_reserves s.zeta_adjustment)
      s.bond_reserves face_value = false ∧
    ∃ r, open_short_position capital face_value s c dc pd phi_n phi_g now = .ok r ∧
      r.1.bond_reserves = s.bond_reserves + face_value := by
  constructor
  · unfold validate_trading_parameters
    simp [not_lt.2 hface]
  · have hf : ¬ face_value ≤ 0 := by push_neg; linarith
    unfold open_short_position
    simp only [if_neg hf, if_neg (not_lt.2 hcap)]
    exact ⟨_, rfl, rfl⟩

/-- Witness for the amended C6 at `z = 10`, `y = 5`, `Δy = 5`, capital 6. -/
theorem open_short_skips_trading_validation_witness :
    validate_trading_parameters
      (calculate_effective_share_reserves (10:ℚ) 0) 5 5 = false ∧
    ∃ r, open_short_position 6 5 ⟨10, 5, 0, [], 0⟩ 1 1 1 0 0 0 = .ok r ∧
      r.1.bond_reserves = 5 + 5 :=
  open_short_skips_trading_validation 6 5 ⟨10, 5, 0, [], 0⟩ 1 1 1 0 0 0
    (by norm_num) (by norm_num)
    (by unfold open_short_required_deposit calculate_short_deposit
          position_impact_delta_z trading_invariant_delta_z
          calculate_effective_share_reserves calculate_spot_rate
          calculate_position_fees
        norm_num)

/-- A position closed at its own opening instant has a full term remaining. -/
theorem calculate_time_remaining_full (pd : Nat) (h : 0 < pd) :
    calculate_time_remaining 0 0 pd = 1 := by
  unfold calculate_time_remaining
  rw [if_neg (by omega), if_neg (by omega), if_neg (by omega)]
  simp only [Nat.sub_zero]
  exact div_self (Nat.cast_ne_zero.2 h.ne')

/-- The spot rate is invariant under scaling both the effective reserves and
the bond reserves by the same positive factor. -/
theorem calculate_spot_rate_scale (e y c r : ℚ) (hr : 0 < r) :
    calculate_spot_rate (e * r) (y * r) c = calculate_spot_rate e y c := by
  have key : ∀ a : ℚ, a * r ≤ 0 ↔ a ≤ 0 := by
    intro a
    constructor
    · intro h
      by_contra hh
      push_neg at hh
      nlinarith
    · intro h
      nlinarith
  unfold calculate_spot_rate
  simp only []
  by_cases hA : e ≤ 0 ∨ y ≤ 0
  · rw [if_pos hA, if_pos (by rw [key e, key y]; exact hA)]
  · rw [if_neg hA, if_neg (by rw [key e, key y]; exact hA)]
    have hsum : e * r * c + y * r = (e * c + y) * r := by ring
    by_cases hB : e * c + y ≤ 0
    · rw [if_pos hB, if_pos (by rw [hsum, key]; exact hB)]
    · rw [if_neg hB, if_neg (by rw [hsum, key]; exact hB)]
      rw [hsum, mul_right_comm, mul_div_mul_right _ _ hr.ne']

/-- Counterexample to claim C8: a committed sweep that drains the share
reserves to zero (`z = 10`, idle liquidity 10, one outstanding withdrawal
share) rescales `y` and `ζ` to zero, changing the spot rate from `−1/3` to
the degenerate `0`. -/
theorem sweep_changes_spot_rate_at_boundary :
    distribute_excess_idle_liquidity 10 5 0 1 1 10 0 [] 0 1 1 = ⟨0, 0, 0, 10, 1⟩ ∧
    calculate_spot_rate (0 - 0) 0 1 ≠ calculate_spot_rate (10 - 0) 5 1 := by
  have hs : calculate_solvency_requirement [] 0 1 1 = 0 := by
    unfold calculate_solvency_requirement
    simp [cpGet]
  have hidle : calculate_idle_liquidity 10 1 0 [] 0 1 1 = 10 := by
    unfold calculate_idle_liquidity
    rw [hs]
    norm_num [max_def, min_def]
  constructor
  · unfold distribute_excess_idle_liquidity
    rw [hidle]
    norm_num [calculate_lp_present_value, min_def]
  · norm_num [calculate_spot_rate]

/-- Claim C8 (amended): whenever `distribute_excess_idle_liquidity` performs a
sweep and the post-sweep share reserves stay strictly positive (with a
positive share price), the rescaling of `ζ` and `y` by the reserve-shrink
factor preserves the spot rate exactly in rational arithmetic. -/
theorem sweep_preserves_spot_rate (z y zeta c w lp minz : ℚ)
    (cps : List (Nat × Checkpoint)) (cc dc pd : Nat) (hc : 0 < c)
    (hidle : 0 < (distribute_excess_idle_liquidity z y zeta c w lp minz cps cc dc pd).idle)
    (hz : 0 < (distribute_excess_idle_liquidity z y zeta c w lp minz cps cc dc pd).share_reserves) :
    calculate_spot_rate
      ((distribute_excess_idle_liquidity z y zeta c w lp minz cps cc dc pd).share_reserves -
        (distribute_excess_idle_liquidity z y zeta c w lp minz cps cc dc pd).zeta_adjustment)
      (distribute_excess_idle_liquidity z y zeta c w lp minz cps cc dc pd).bond_reserves c =
    calculate_spot_rate (z - zeta) y c := by
  unfold distribute_excess_idle_liquidity at hidle hz ⊢
  simp only [] at hidle hz ⊢
  split_ifs at hidle hz ⊢ with h1 h2
  · simp at hidle
  · simp at hidle
  · dsimp only at hidle hz ⊢
    push_neg at h1
    set i := calculate_idle_liquidity z c minz cps cc dc pd with hidef
    have hipos : 0 < i := h1.2
    have hA : 0 < z - i / c := hz
    have hzpos : 0 < z := by
      have hio : 0 < i / c := div_pos hipos hc
      linarith
    have hsum : z - i / c + i / c = z := by ring
    rw [hsum]
    have hr : 0 < (z - i / c) / z := div_pos hA hzpos
    have hzne : z ≠ 0 := hzpos.ne'
    have he1 : z - i / c - zeta * ((z - i / c) / z) = (z - zeta) * ((z - i / c) / z) := by
      field_simp
      ring
    rw [he1]
    exact calculate_spot_rate_scale (z - zeta) y c ((z - i / c) / z) hr

/-- Witness for the amended C8: `z = 10`, `y = 5`, `ζ = 2`, `c = 1`,
`min_share_reserves = 5` leaves idle liquidity 5 and post-sweep reserves 5. -/
theorem sweep_preserves_spot_rate_witness :
    calculate_spot_rate
      ((distribute_excess_idle_liquidity 10 5 2 1 1 10 5 [] 0 1 1).share_reserves -
        (distribute_excess_idle_liquidity 10 5 2 1 1 10 5 [] 0 1 1).zeta_adjustment)
      (distribute_excess_idle_liquidity 10 5 2 1 1 10 5 [] 0 1 1).bond_reserves 1 =
    calculate_spot_rate (10 - 2) 5 1 := by
  have hs : calculate_solvency_requirement [] 0 1 1 = 0 := by
    unfold calculate_solvency_requirement
    simp [cpGet]
  have hidle : calculate_idle_liquidity 10 1 5 [] 0 1 1 = 5 := by
    unfold calculate_idle_liquidity
    rw [hs]
    norm_num [max_def, min_def]
  refine sweep_preserves_spot_rate 10 5 2 1 1 10 5 [] 0 1 1 (by norm_num) ?_ ?_
  · unfold distribute_excess_idle_liquidity
    rw [hidle]
    norm_num [calculate_lp_present_value, min_def]
  · unfold distribute_excess_idle_liquidity
    rw [hidle]
    norm_num [calculate_lp_present_value, min_def]

/-- Counterexample to claim C7: on the pool `z = 100`, `y = 100`, `c = 1`
with all fees zero, an `open_long` of 10 immediately followed by `close_long`
of the returned position (same instant, `tr = 1`) pays out `110/9 ≈ 12.22`,
not the supplied capital `10` minus the (zero) fees. -/
theorem long_round_trip_not_capital_minus_fees :
    (close_long_position
        (open_long_position 10 ⟨100, 100, 0, [], 0⟩ 1 7 21 0 0 0).2.1
        (open_long_position 10 ⟨100, 100, 0, [], 0⟩ 1 7 21 0 0 0).1
        1 7 0 0 0 0).2.1 = 110 / 9 ∧
    (110 / 9 : ℚ) ≠ 10 := by
  have hcp : update_checkpoint_if_needed [] 0 7 1 0 = ([], 0) :=
    update_checkpoint_no_op _ _ _ _ _ (by norm_num [calculate_current_checkpoint])
  have hopen : open_long_position 10 (⟨100, 100, 0, [], 0⟩ : PoolSt) 1 7 21 0 0 0 =
      (⟨110, 1000 / 11, 0, [], 0⟩, ⟨100 / 11, 0, 0, 21⟩, 0) := by
    unfold open_long_position
    rw [hcp]
    norm_num [calculate_effective_share_reserves, calculate_long_face_value,
      calculate_spot_rate, calculate_position_fees,
      update_checkpoint_long_opened, cpModify, cpGet]
  rw [hopen]
  refine ⟨?_, by norm_num⟩
  have htr : calculate_time_remaining 0 0 21 = 1 :=
    calculate_time_remaining_full 21 (by norm_num)
  unfold close_long_position
  rw [hcp, htr]
  norm_num [calculate_effective_share_reserves, position_impact_delta_z,
    trading_invariant_delta_z, calculate_spot_rate, calculate_position_fees,
    maturity_pricing_delta_z]

/-- Claim C7 (amended): an `open_long` of `b` immediately followed by
`close_long` at `tr = 1` on a fee-free pool (`z, y > 0`, `ζ = 0`, `c = 1`,
`0 < b < z`) pays out `b + 2·b²/(z−b)` — strictly more than the supplied
capital, because the close path reuses the `y − Δy` trading-invariant quote
instead of selling the bonds back at `y + Δy`; the round trip is not
capital-minus-fees even with zero fees. -/
theorem long_round_trip_zero_fee_exceeds_capital (z y b : ℚ) (dc pd : Nat)
    (hz : 0 < z) (hy : 0 < y) (hb : 0 < b) (hbz : b < z) (hpd : 0 < pd) :
    (close_long_position
        (open_long_position b ⟨z, y, 0, [], 0⟩ 1 dc pd 0 0 0).2.1
        (open_long_position b ⟨z, y, 0, [], 0⟩ 1 dc pd 0 0 0).1
        1 dc 0 0 0 0).2.1 = b + 2 * b ^ 2 / (z - b) ∧
    b < (close_long_position
        (open_long_position b ⟨z, y, 0, [], 0⟩ 1 dc pd 0 0 0).2.1
        (open_long_position b ⟨z, y, 0, [], 0⟩ 1 dc pd 0 0 0).1
        1 dc 0 0 0 0).2.1 := by
  have hcp : update_checkpoint_if_needed [] 0 dc 1 0 = ([], 0) :=
    update_checkpoint_no_op _ _ _ _ _ (by simp [calculate_current_checkpoint])
  have hzb : (0:ℚ) < z + b := by linarith
  have hface : z * y / (z + b) < y := by
    rw [div_lt_iff₀ hzb]
    nlinarith
  have hfacepos : 0 < y - z * y / (z + b) := by linarith
  have hopen : open_long_position b (⟨z, y, 0, [], 0⟩ : PoolSt) 1 dc pd 0 0 0 =
      (⟨z + b, y - (y - z * y / (z + b)), 0, [], 0⟩,
        ⟨y - z * y / (z + b), 0, 0, pd⟩, 0) := by
    unfold open_long_position
    rw [hcp]
    norm_num [calculate_effective_share_reserves, calculate_long_face_value,
      hz.not_le, hy.not_le, calculate_position_fees,
      update_checkpoint_long_opened, cpModify, cpGet]
  rw [hopen]
  have htr : calculate_time_remaining 0 0 pd = 1 :=
    calculate_time_remaining_full pd hpd
  have hres : y - (y - z * y / (z + b)) = z * y / (z + b) := by ring
  have hy1 : 0 < z * y / (z + b) := div_pos (mul_pos hz hy) hzb
  have hnewy : z * y / (z + b) - (y - z * y / (z + b)) = y * (z - b) / (z + b) := by
    field_simp
    ring
  have hnewypos : 0 < y * (z - b) / (z + b) :=
    div_pos (mul_pos hy (by linarith)) hzb
  have hdz : trading_invariant_delta_z (y - z * y / (z + b)) (z + b)
      (z * y / (z + b)) = b + 2 * b ^ 2 / (z - b) := by
    unfold trading_invariant_delta_z
    rw [if_neg (by push_neg; constructor <;> linarith), if_neg (by rw [hnewy]; linarith)]
    rw [hnewy]
    have hzb' : z + b ≠ 0 := hzb.ne'
    have hzbm : z - b ≠ 0 := by linarith
    field_simp
    ring
  have hmain : (close_long_position (⟨y - z * y / (z + b), 0, 0, pd⟩ : LongPosition)
      (⟨z + b, y - (y - z * y / (z + b)), 0, [], 0⟩ : PoolSt)
      1 dc 0 0 0 0).2.1 = b + 2 * b ^ 2 / (z - b) := by
    unfold close_long_position
    rw [hcp, htr]
    norm_num [calculate_effective_share_reserves, position_impact_delta_z,
      hfacepos, calculate_position_fees]
    exact hdz
  refine ⟨hmain, ?_⟩
  rw [hmain]
  have : 0 < 2 * b ^ 2 / (z - b) := div_pos (by positivity) (by linarith)
  linarith

/-- Witness for the amended C7 at `z = 100`, `y = 50`, `b = 10`. -/
theorem long_round_trip_zero_fee_exceeds_capital_witness :
    (close_long_position
        (open_long_position 10 ⟨100, 50, 0, [], 0⟩ 1 3 14 0 0 0).2.1
        (open_long_position 10 ⟨100, 50, 0, [], 0⟩ 1 3 14 0 0 0).1
        1 3 0 0 0 0).2.1 = 10 + 2 * 10 ^ 2 / (100 - 10) ∧
    10 < (close_long_position
        (open_long_position 10 ⟨100, 50, 0, [], 0⟩ 1 3 14 0 0 0).2.1
        (open_long_position 10 ⟨100, 50, 0, [], 0⟩ 1 3 14 0 0 0).1
        1 3 0 0 0 0).2.1 :=
  long_round_trip_zero_fee_exceeds_capital 100 50 10 3 14 (by norm_num)
    (by norm_num) (by norm_num) (by norm_num) (by norm_num)

end Influxpool
